import Mathlib

/-!
Shallow embedding of `src/xcode/Vp8Streamer/simple_encoder.c`.

The file is a thin driver around the external libvpx VP8 encoder.  The
external engine (handle creation, per-call packet emission, handle
destruction) is opaque; we model its observable responses as explicit
parameters (booleans for success/failure of engine calls, a list of packets
for what a `vpx_codec_get_cx_data` drain would yield on one encode call).
Everything the driver itself computes — resolution validation, the bitrate
scaling arithmetic, the frame counter, the IVF file-header bytes, the
read-frame classification — is translated directly from the C source.
-/

namespace SimpleEncoder

/-- The `g_pass` values of `vpx_enc_pass`: `VPX_RC_ONE_PASS`,
`VPX_RC_FIRST_PASS`, `VPX_RC_LAST_PASS`. -/
inductive EncoderPass where
  | onePass
  | firstPass
  | lastPass
deriving DecidableEq, Repr

/-- Packet kinds as the driver distinguishes them: `VPX_CODEC_CX_FRAME_PKT`
versus every other `vpx_codec_cx_pkt_kind`. -/
inductive PktKind where
  | cxFramePkt
  | otherPkt
deriving DecidableEq, Repr

/-- One `vpx_codec_cx_pkt_t` as observed by the driver: its kind, the frame
payload size `data.frame.sz`, the presentation timestamp `data.frame.pts`
and the `VPX_FRAME_IS_KEY` bit of `data.frame.flags`. -/
structure Pkt where
  kind : PktKind
  sz : Nat
  pts : Nat
  isKey : Bool
deriving DecidableEq, Repr

/-- The fields of `vpx_codec_enc_cfg_t` that the driver reads or writes:
frame dimensions `g_w`/`g_h`, the timebase rational `g_timebase.num` /
`g_timebase.den`, the target bitrate `rc_target_bitrate` and the pass
mode `g_pass`. -/
structure EncCfg where
  g_w : Nat
  g_h : Nat
  timebase_num : Nat
  timebase_den : Nat
  rc_target_bitrate : Nat
  g_pass : EncoderPass
deriving DecidableEq, Repr

/-! ### Little-endian byte stores (`mem_put_le16`, `mem_put_le32`)

The C functions assign successive `char`s from an `unsigned int`; each
store keeps the low 8 bits of the shifted value, i.e. `(val >> 8k) % 256`. -/

/-- `mem_put_le16`: the two bytes `mem[0] = val`, `mem[1] = val >> 8`. -/
def mem_put_le16 (val : Nat) : List Nat :=
  [val % 256, val / 256 % 256]

/-- `mem_put_le32`: the four bytes `val`, `val >> 8`, `val >> 16`,
`val >> 24`, each truncated to a `char`. -/
def mem_put_le32 (val : Nat) : List Nat :=
  [val % 256, val / 256 % 256, val / 65536 % 256, val / 16777216 % 256]

/-- `fourcc` for VP8: `0x30385056`. -/
def fourcc : Nat := 0x30385056

/-- The 32 header bytes assembled by `write_ivf_file_header` once the pass
guard has been passed: magic "DKIF", version 0, header size 32, fourcc,
width, height, timebase denominator (rate), timebase numerator (scale),
frame count, reserved 0. -/
def ivf_header_bytes (cfg : EncCfg) (frame_cnt : Nat) : List Nat :=
  [68, 75, 73, 70]
    ++ mem_put_le16 0
    ++ mem_put_le16 32
    ++ mem_put_le32 fourcc
    ++ mem_put_le16 cfg.g_w
    ++ mem_put_le16 cfg.g_h
    ++ mem_put_le32 cfg.timebase_den
    ++ mem_put_le32 cfg.timebase_num
    ++ mem_put_le32 frame_cnt
    ++ mem_put_le32 0

/-- `write_ivf_file_header`: returns the bytes written to the output file.
The C function returns without writing anything when
`cfg->g_pass != VPX_RC_ONE_PASS && cfg->g_pass != VPX_RC_LAST_PASS`;
otherwise it writes the 32 assembled header bytes. -/
def write_ivf_file_header (cfg : EncCfg) (frame_cnt : Nat) : List Nat :=
  if cfg.g_pass ≠ EncoderPass.onePass ∧ cfg.g_pass ≠ EncoderPass.lastPass then
    []
  else
    ivf_header_bytes cfg frame_cnt

/-! ### Re-parsing little-endian fields (the layout of spec §6) -/

/-- Read a little-endian 16-bit field at `off` from a byte list. -/
def read_le16 (bs : List Nat) (off : Nat) : Nat :=
  bs.getD off 0 + 256 * bs.getD (off + 1) 0

/-- Read a little-endian 32-bit field at `off` from a byte list. -/
def read_le32 (bs : List Nat) (off : Nat) : Nat :=
  bs.getD off 0 + 256 * bs.getD (off + 1) 0
    + 65536 * bs.getD (off + 2) 0 + 16777216 * bs.getD (off + 3) 0

/-! ### `read_frame` -/

/-- The number of bytes `read_frame` asks `fread` for:
`(img->w * img->h * 3) / 2`. -/
def frame_to_read (w h : Nat) : Nat := w * h * 3 / 2

/-- The observable outcome of one `read_frame` call: the C return value
(`res`, 1 on a full read and 0 otherwise) and whether the partial-read
warning was printed. -/
structure ReadRes where
  res : Nat
  warned : Bool
deriving DecidableEq, Repr

/-- `read_frame` on a stream with `avail` bytes remaining: `fread` returns
`min to_read avail` bytes; `res` stays 1 iff all bytes were read, and the
warning is printed iff the read was short but nonempty. -/
def read_frame (w h avail : Nat) : ReadRes :=
  let t := frame_to_read w h
  let nbytes := min t avail
  { res := if nbytes = t then 1 else 0
    warned := decide (nbytes ≠ t) && decide (0 < nbytes) }

/-- The spec's three-way classification of a `read_frame` outcome, read off
the code's observables: `Full` when `res = 1`, `Partial` when `res = 0`
with the warning, `Empty` when `res = 0` without it. -/
inductive ReadClass where
  | fullRead
  | partialRead
  | emptyRead
deriving DecidableEq, Repr

/-- Classify a `read_frame` result into the spec's taxonomy. -/
def classify_read (r : ReadRes) : ReadClass :=
  if r.res = 1 then ReadClass.fullRead
  else if r.warned then ReadClass.partialRead
  else ReadClass.emptyRead

/-! ### `setup_encoder` -/

/-- How a `setup_encoder` call terminates: `die` on an invalid resolution,
`EXIT_FAILURE` when `vpx_codec_enc_config_default` fails, `die_codec` when
`vpx_codec_enc_init` fails, or `EXIT_SUCCESS`. -/
inductive SetupOutcome where
  | dieInvalidRes
  | configFail
  | dieInit
  | success
deriving DecidableEq, Repr

/-- The observable result of `setup_encoder`: how it terminated, whether an
engine handle was created (`vpx_codec_enc_init` was reached and succeeded),
and the configuration installed in the global `cfg` (present only on
success). -/
structure SetupRes where
  outcome : SetupOutcome
  handleAllocated : Bool
  cfg : Option EncCfg
deriving DecidableEq, Repr

/-- The resolution validation of `setup_encoder`:
`width < 16 || width%2 || height < 16 || height%2` makes it die.  `width`
and `height` are C `long`s; an odd value has a nonzero remainder mod 2 in
both C and `Int.emod` semantics. -/
def valid_resolution (width height : Int) : Prop :=
  16 ≤ width ∧ width % 2 = 0 ∧ 16 ≤ height ∧ height % 2 = 0

instance (width height : Int) : Decidable (valid_resolution width height) := by
  unfold valid_resolution; infer_instance

/-- The bitrate update of `setup_encoder`:
`cfg.rc_target_bitrate = width * height * cfg.rc_target_bitrate / cfg.g_w / cfg.g_h`,
evaluated left to right in nonnegative integer arithmetic. -/
def scaled_bitrate (w h defBitrate defW defH : Nat) : Nat :=
  w * h * defBitrate / defW / defH

/-- `setup_encoder width height`: dies on an invalid resolution before any
engine call; otherwise fetches the default configuration (`cfgOk` models
`vpx_codec_enc_config_default` succeeding), scales the bitrate, installs
the dimensions, and initializes the codec (`initOk` models
`vpx_codec_enc_init` succeeding). -/
def setup_encoder (width height : Int) (defaultCfg : EncCfg)
    (cfgOk initOk : Bool) : SetupRes :=
  if ¬ valid_resolution width height then
    { outcome := SetupOutcome.dieInvalidRes, handleAllocated := false, cfg := none }
  else if ¬ cfgOk then
    { outcome := SetupOutcome.configFail, handleAllocated := false, cfg := none }
  else
    let newCfg : EncCfg :=
      { defaultCfg with
        rc_target_bitrate :=
          scaled_bitrate width.toNat height.toNat defaultCfg.rc_target_bitrate
            defaultCfg.g_w defaultCfg.g_h
        g_w := width.toNat
        g_h := height.toNat }
    if ¬ initOk then
      { outcome := SetupOutcome.dieInit, handleAllocated := false, cfg := none }
    else
      { outcome := SetupOutcome.success, handleAllocated := true, cfg := some newCfg }

/-! ### `encode_frame` -/

/-- How one `encode_frame` call ends: returning the first packet pointer,
dereferencing the NULL packet pointer (the engine emitted nothing for this
call), or `die_codec` because `vpx_codec_encode` reported an error. -/
inductive EncodeResult where
  | ok (p : Pkt)
  | nullDeref
  | dieEncode
deriving DecidableEq, Repr

/-- One `encode_frame` call.  `encErr` models `vpx_codec_encode` failing
(`die_codec`, before any counter update); `pkts` is the sequence the engine
has ready for this call.  The code fetches a single packet with one
`vpx_codec_get_cx_data` call and immediately dereferences it
(`pkt->kind`), so an empty emission is the null-dereference branch;
otherwise `frame_cnt++` runs and the head packet is returned. -/
def encode_step (encErr : Bool) (pkts : List Pkt) (frame_cnt : Nat) :
    EncodeResult × Nat :=
  if encErr then (EncodeResult.dieEncode, frame_cnt)
  else
    match pkts with
    | [] => (EncodeResult.nullDeref, frame_cnt)
    | p :: _ => (EncodeResult.ok p, frame_cnt + 1)

/-- The sequence of packets a successful `encode_frame` call surfaces to
its caller: the single head packet (the code performs exactly one
`vpx_codec_get_cx_data` fetch and returns that pointer), nothing when the
engine emitted nothing. -/
def encode_returned (pkts : List Pkt) : List Pkt :=
  match pkts with
  | [] => []
  | p :: _ => [p]

/-- Iterate `encode_frame` over one engine emission list per call, starting
from the given counter; a crashed or died call stops the run with the
counter it left behind. -/
def run_encodes (emissions : List (List Pkt)) (frame_cnt : Nat) : Nat :=
  match emissions with
  | [] => frame_cnt
  | e :: rest =>
    match encode_step false e frame_cnt with
    | (EncodeResult.ok _, c) => run_encodes rest c
    | (_, c) => c

/-! ### `finalise_encoder` and the session trace -/

/-- Messages the driver prints that the claims observe. -/
inductive Msg where
  | processedFrames (n : Int)
  | partialReadWarning
  | unknownPacketWarning
deriving DecidableEq, Repr

/-- How a `finalise_encoder` call terminates: `EXIT_SUCCESS`, or
`die_codec` when `vpx_codec_destroy` reports failure. -/
inductive FinaliseOutcome where
  | success
  | dieDestroy
deriving DecidableEq, Repr

/-- The frame count `finalise_encoder` reports:
`printf("Processed %d frames.", frame_cnt - 1)` with `frame_cnt` a C
`int`. -/
def finalise_report (frame_cnt : Nat) : Int := (frame_cnt : Int) - 1

/-- The mutable globals of the file that the session claims observe:
the frame counter, whether the engine handle is still live, and the
accumulated printed messages. -/
structure GlobalState where
  frame_cnt : Nat
  handleLive : Bool
  output : List Msg
deriving DecidableEq, Repr

/-- `finalise_encoder` run on the global state: it unconditionally prints
the report (with `frame_cnt - 1`), then calls `vpx_codec_destroy`
(`destroyOk` models that engine call succeeding); a failed destroy is
`die_codec`.  No flag guards the call: the code never checks whether the
session was already finalized. -/
def finalise_encoder (s : GlobalState) (destroyOk : Bool) :
    GlobalState × FinaliseOutcome :=
  let s' : GlobalState :=
    { s with
      output := s.output ++ [Msg.processedFrames (finalise_report s.frame_cnt)]
      handleLive := false }
  if destroyOk then (s', FinaliseOutcome.success)
  else (s', FinaliseOutcome.dieDestroy)

/-- `encode_frame` run on the global state (engine call succeeding, engine
emitting `pkts`): no state-machine guard exists, so the body runs even
after `finalise_encoder`; a nonempty emission appends the per-frame
progress output and increments the counter. -/
def encode_frame_global (s : GlobalState) (pkts : List Pkt) :
    GlobalState × EncodeResult :=
  match pkts with
  | [] => (s, EncodeResult.nullDeref)
  | p :: _ =>
    let warn : List Msg :=
      if p.kind = PktKind.cxFramePkt then [] else [Msg.unknownPacketWarning]
    ({ s with frame_cnt := s.frame_cnt + 1, output := s.output ++ warn },
      EncodeResult.ok p)

/-! ## Claim theorems -/

/-- C1: `setup_encoder` gets past the resolution validation exactly when
both dimensions are even and at least 16; any violating resolution dies
with the invalid-resolution error before any engine call, leaving no
handle allocated and no configuration installed. -/
theorem setup_resolution_validation (w h : Int) (dc : EncCfg) (cfgOk initOk : Bool) :
    ((setup_encoder w h dc cfgOk initOk).outcome ≠ SetupOutcome.dieInvalidRes
        ↔ valid_resolution w h)
      ∧ (¬ valid_resolution w h →
          (setup_encoder w h dc cfgOk initOk).handleAllocated = false
            ∧ (setup_encoder w h dc cfgOk initOk).cfg = none) := by
  constructor
  · by_cases hv : valid_resolution w h
    · simp only [setup_encoder, hv, not_true, if_false, iff_true]
      cases cfgOk <;> cases initOk <;> simp
    · simp [setup_encoder, hv]
  · intro hv
    simp [setup_encoder, hv]

/-- Witness for C1: the odd width 15 (and even height 16) is rejected with
no handle allocated. -/
theorem setup_resolution_validation_witness :
    (setup_encoder 15 16 ⟨320, 240, 1, 30, 256, EncoderPass.onePass⟩ true true).handleAllocated
      = false :=
  ((setup_resolution_validation 15 16 ⟨320, 240, 1, 30, 256, EncoderPass.onePass⟩
      true true).2 (by decide)).1

/-- C2: `read_frame` asks for exactly `w*h*3/2` bytes, its C return value
is only ever 0 or 1 (there is no error return), and the outcome
classification is: full read ⇒ `Full`; short nonempty read ⇒ `Partial`
with the warning printed; zero bytes read ⇒ `Empty` with no warning. -/
theorem read_frame_classification (w h avail : Nat) :
    frame_to_read w h = w * h * 3 / 2
      ∧ ((read_frame w h avail).res = 0 ∨ (read_frame w h avail).res = 1)
      ∧ (frame_to_read w h ≤ avail →
          classify_read (read_frame w h avail) = ReadClass.fullRead)
      ∧ (0 < avail → avail < frame_to_read w h →
          classify_read (read_frame w h avail) = ReadClass.partialRead
            ∧ (read_frame w h avail).warned = true)
      ∧ (avail = 0 → 0 < frame_to_read w h →
          classify_read (read_frame w h avail) = ReadClass.emptyRead
            ∧ (read_frame w h avail).warned = false) := by
  refine ⟨rfl, ?_, ?_, ?_, ?_⟩
  · simp only [read_frame]
    split <;> simp
  · intro hge
    simp [read_frame, classify_read, Nat.min_eq_left hge]
  · intro hpos hlt
    have hmin : min (frame_to_read w h) avail = avail :=
      Nat.min_eq_right (Nat.le_of_lt hlt)
    have hne : avail ≠ frame_to_read w h := Nat.ne_of_lt hlt
    constructor
    · simp [read_frame, classify_read, hmin, hne, hpos]
    · simp [read_frame, hmin, hne, hpos]
  · intro hz hpos
    subst hz
    have hne : (0 : Nat) ≠ frame_to_read w h := (Nat.pos_iff_ne_zero.mp hpos).symm
    constructor
    · simp [read_frame, classify_read, Nat.min_zero, hne]
    · simp [read_frame, Nat.min_zero, hne]

/-- Witness for C2: at 64×64 a frame is 6144 bytes; a stream holding 3072
bytes classifies as a partial read and an empty stream as an empty read. -/
theorem read_frame_classification_witness :
    classify_read (read_frame 64 64 3072) = ReadClass.partialRead
      ∧ classify_read (read_frame 64 64 0) = ReadClass.emptyRead :=
  ⟨((read_frame_classification 64 64 3072).2.2.2.1 (by decide) (by decide)).1,
   ((read_frame_classification 64 64 0).2.2.2.2 rfl (by decide)).1⟩

/-- C3 counterexample: when the engine has two packets ready for one call,
`encode_frame` surfaces only the first — the returned sequence is not the
complete emission. -/
theorem encode_frame_drain_counterexample :
    encode_returned
        [⟨PktKind.cxFramePkt, 100, 0, true⟩, ⟨PktKind.cxFramePkt, 50, 0, false⟩]
      ≠ [⟨PktKind.cxFramePkt, 100, 0, true⟩, ⟨PktKind.cxFramePkt, 50, 0, false⟩] := by
  decide

/-- C3 amended: `encode_frame` performs exactly one packet fetch per call
and returns only the head of the engine's emission; the remaining packets
are never drained. -/
theorem encode_frame_returns_first_packet (p : Pkt) (rest : List Pkt) (cnt : Nat) :
    encode_returned (p :: rest) = [p]
      ∧ (encode_step false (p :: rest) cnt).1 = EncodeResult.ok p :=
  ⟨rfl, rfl⟩

/-- C4 counterexample: one `encode_frame` call during which the engine
emits zero packets reaches the null-dereference branch before the counter
update, so one call does not increment the counter by one. -/
theorem encode_count_counterexample :
    run_encodes [[]] 0 ≠ 0 + 1 := by decide

/-- C4 amended: provided every call's engine emission is nonempty, N
`encode_frame` calls increment the frame counter by exactly N, however
many packets (one or more) each call emits. -/
theorem encode_count_increments :
    ∀ (emissions : List (List Pkt)) (cnt : Nat),
      (∀ e ∈ emissions, e ≠ []) →
      run_encodes emissions cnt = cnt + emissions.length := by
  intro emissions
  induction emissions with
  | nil => intro cnt _; simp [run_encodes]
  | cons e rest ih =>
    intro cnt hne
    cases e with
    | nil => exact absurd rfl (hne [] (List.mem_cons_self _ _))
    | cons p tl =>
      have h1 : run_encodes ((p :: tl) :: rest) cnt = run_encodes rest (cnt + 1) := by
        simp [run_encodes, encode_step]
      rw [h1, ih (cnt + 1) (fun x hx => hne x (List.mem_cons_of_mem _ hx))]
      simp [List.length_cons]
      omega

/-- Witness for C4 amended: two calls, emitting one and two packets
respectively, take the counter from 0 to 2. -/
theorem encode_count_increments_witness :
    run_encodes
        [[⟨PktKind.cxFramePkt, 1, 0, true⟩],
         [⟨PktKind.otherPkt, 2, 1, false⟩, ⟨PktKind.cxFramePkt, 3, 1, false⟩]] 0 = 2 := by
  have h := encode_count_increments
    [[⟨PktKind.cxFramePkt, 1, 0, true⟩],
     [⟨PktKind.otherPkt, 2, 1, false⟩, ⟨PktKind.cxFramePkt, 3, 1, false⟩]] 0 (by decide)
  simpa using h

/-- C5: after 10 successful `encode_frame` calls the frame counter is 10,
but `finalise_encoder` prints `frame_cnt - 1`, reporting 9 frames instead
of the 10 that were processed. -/
theorem finalise_report_off_by_one :
    run_encodes (List.replicate 10 [⟨PktKind.cxFramePkt, 100, 0, true⟩]) 0 = 10
      ∧ finalise_report 10 = 9 ∧ (9 : Int) ≠ 10 := by
  refine ⟨by decide, by decide, by decide⟩

/-- C6: for every valid resolution, the configuration a successful setup
installs carries a target bitrate equal to `width*height*defaultBitrate`
divided (in integer arithmetic) by the default pixel count
`defaultWidth*defaultHeight` — the two successive divisions of the source
coincide with division by the product. -/
theorem setup_bitrate_scaling (w h : Int) (dc : EncCfg)
    (hv : valid_resolution w h) :
    (setup_encoder w h dc true true).cfg =
      some { dc with
        rc_target_bitrate :=
          w.toNat * h.toNat * dc.rc_target_bitrate / (dc.g_w * dc.g_h)
        g_w := w.toNat
        g_h := h.toNat } := by
  simp [setup_encoder, hv, scaled_bitrate, Nat.div_div_eq_div_mul]

/-- Witness for C6: at 64×64 against the default 320×240 / 256 kbps
configuration the installed bitrate is `64*64*256 / (320*240) = 13`. -/
theorem setup_bitrate_scaling_witness :
    (setup_encoder 64 64 ⟨320, 240, 1, 30, 256, EncoderPass.onePass⟩ true true).cfg =
      some ⟨64, 64, 1, 30, 13, EncoderPass.onePass⟩ := by
  rw [setup_bitrate_scaling 64 64 ⟨320, 240, 1, 30, 256, EncoderPass.onePass⟩ (by decide)]
  decide

/-- C7: writing the 32-byte IVF file header with width 64, height 64,
timebase 30/1 and frame count 10 and re-parsing the bytes by the §6
little-endian layout returns exactly those five field values. -/
theorem ivf_header_roundtrip :
    read_le16 (write_ivf_file_header ⟨64, 64, 1, 30, 13, EncoderPass.onePass⟩ 10) 12 = 64
      ∧ read_le16 (write_ivf_file_header ⟨64, 64, 1, 30, 13, EncoderPass.onePass⟩ 10) 14 = 64
      ∧ read_le32 (write_ivf_file_header ⟨64, 64, 1, 30, 13, EncoderPass.onePass⟩ 10) 16 = 30
      ∧ read_le32 (write_ivf_file_header ⟨64, 64, 1, 30, 13, EncoderPass.onePass⟩ 10) 20 = 1
      ∧ read_le32 (write_ivf_file_header ⟨64, 64, 1, 30, 13, EncoderPass.onePass⟩ 10) 24 = 10 := by
  decide

/-- C8 counterexample: with the counter at 10 and the handle live, a first
`finalise_encoder` succeeds; a second call then also returns success (not
an invalid-state failure — no such error exists in the code), mutates the
state by printing the report a second time, and a subsequent
`encode_frame` still increments the counter to 11. -/
theorem finalize_no_state_guard_counterexample :
    (finalise_encoder (finalise_encoder ⟨10, true, []⟩ true).1 true).2
        = FinaliseOutcome.success
      ∧ (finalise_encoder (finalise_encoder ⟨10, true, []⟩ true).1 true).1
          ≠ (finalise_encoder ⟨10, true, []⟩ true).1
      ∧ (encode_frame_global (finalise_encoder ⟨10, true, []⟩ true).1
          [⟨PktKind.cxFramePkt, 1, 0, true⟩]).1.frame_cnt = 11 := by
  decide

/-- C8 amended: no state-machine guard exists after `finalise_encoder`: a
second finalize unconditionally appends another frame report to the output
and re-attempts engine destruction, and `encode_frame` on a nonempty
engine emission still increments the frame counter — neither operation
fails with an invalid-state error. -/
theorem post_finalize_operations_unguarded (s : GlobalState) (destroyOk : Bool)
    (p : Pkt) (rest : List Pkt) :
    ((finalise_encoder (finalise_encoder s destroyOk).1 true).1.output
        = (finalise_encoder s destroyOk).1.output
            ++ [Msg.processedFrames
                  (finalise_report (finalise_encoder s destroyOk).1.frame_cnt)])
      ∧ (finalise_encoder (finalise_encoder s destroyOk).1 true).2
          = FinaliseOutcome.success
      ∧ (encode_frame_global (finalise_encoder s destroyOk).1 (p :: rest)).1.frame_cnt
          = (finalise_encoder s destroyOk).1.frame_cnt + 1 := by
  cases destroyOk <;> simp [finalise_encoder, encode_frame_global]

/-- C9: `encode_frame` dereferences the single fetched packet pointer with
no null check: an empty engine emission reaches the null-dereference
branch (counter untouched), and the call completes normally exactly when
the engine emitted at least one packet. -/
theorem encode_null_deref_on_empty_emission (cnt : Nat) (p : Pkt) (rest : List Pkt) :
    encode_step false [] cnt = (EncodeResult.nullDeref, cnt)
      ∧ (encode_step false (p :: rest) cnt).1 = EncodeResult.ok p :=
  ⟨rfl, rfl⟩

/-- C10: `write_ivf_file_header` emits no bytes at all when the pass mode
is neither one-pass nor two-pass-last (i.e. two-pass-first), and emits the
full 32-byte header in the one-pass and two-pass-last modes. -/
theorem ivf_header_pass_gate (cfg : EncCfg) (n : Nat) :
    (cfg.g_pass = EncoderPass.firstPass → write_ivf_file_header cfg n = [])
      ∧ (cfg.g_pass = EncoderPass.onePass ∨ cfg.g_pass = EncoderPass.lastPass →
          write_ivf_file_header cfg n = ivf_header_bytes cfg n
            ∧ (write_ivf_file_header cfg n).length = 32) := by
  rcases cfg with ⟨w, h, num, den, br, pass⟩
  cases pass <;>
    simp [write_ivf_file_header, ivf_header_bytes, mem_put_le16, mem_put_le32]

/-- Witness for C10: a two-pass-first configuration writes nothing and a
one-pass configuration writes the 32 header bytes. -/
theorem ivf_header_pass_gate_witness :
    write_ivf_file_header ⟨64, 64, 1, 30, 13, EncoderPass.firstPass⟩ 10 = []
      ∧ (write_ivf_file_header ⟨64, 64, 1, 30, 13, EncoderPass.onePass⟩ 10).length = 32 :=
  ⟨(ivf_header_pass_gate ⟨64, 64, 1, 30, 13, EncoderPass.firstPass⟩ 10).1 rfl,
   ((ivf_header_pass_gate ⟨64, 64, 1, 30, 13, EncoderPass.onePass⟩ 10).2 (Or.inl rfl)).2⟩

end SimpleEncoder
